import Mathlib

/-!
Verification development for the MorganMap tour-mapping pipeline.

The definitions below are a shallow embedding of the front-end pipeline:

* `DistanceService` embeds src/services/distance.ts;
* `processVenue`, `geocodeLoop`, `assembleTour` and `handleExtractTour`
  embed the orchestration in src/App.tsx (the body of `handleExtractTour`
  from the extraction result onward);
* `Json`, `FetchResponse` and `extractTourData` embed the extraction
  client in src/services/ai.ts together with the documented response
  shape of the backend endpoint POST /api/extract-tour.

Modelling conventions: JavaScript numbers are modelled as exact rationals
(`ℚ`); `Math.round` is `jsRound` (round half toward positive infinity);
the transcendental functions of the JavaScript `Math` object are abstract
fields of a `JsMath` record, since their float values are
implementation-defined; calendar dates are modelled by their JavaScript
time values (milliseconds since the epoch, as produced by
`new Date(s).getTime()`), an encoding that is strictly monotone on valid
ISO `YYYY-MM-DD` strings; an absent string field is modelled by `""`,
which is exactly the falsy case used by the code.
-/

namespace MorganMap

/-- JavaScript `Math.round`: round half toward positive infinity. -/
def jsRound (x : ℚ) : ℤ := ⌊x + 1 / 2⌋

/-- The functions of the JavaScript `Math` object used by the Haversine
formula, together with the constant `Math.PI`, kept abstract because
their binary64 values are implementation details. -/
structure JsMath where
  sin : ℚ → ℚ
  cos : ℚ → ℚ
  sqrt : ℚ → ℚ
  atan2 : ℚ → ℚ → ℚ
  pi : ℚ

/-- `Venue` (src/types/tour.ts). The optional `state` field is a string
with `""` for absent; dates are time values (see the header comment). -/
structure Venue where
  id : String
  name : String
  address : String
  city : String
  state : String
  country : String
  latitude : ℚ
  longitude : ℚ
  startDate : ℤ
  endDate : ℤ
  durationDays : ℤ
deriving DecidableEq

/-- `Route` (src/types/tour.ts). The source field `from` is a reserved
word in Lean, hence `fromVenue` and `toVenue`. -/
structure Route where
  fromVenue : Venue
  toVenue : Venue
  distanceKm : ℚ
  distanceMiles : ℚ
deriving DecidableEq

/-- Result shape of `DistanceService.calculateTotalDistance`. -/
structure TotalDistance where
  km : ℚ
  miles : ℚ
deriving DecidableEq

namespace DistanceService

/-- `DistanceService.toRadians` (src/services/distance.ts line 33). -/
def toRadians (M : JsMath) (degrees : ℚ) : ℚ :=
  degrees * (M.pi / 180)

/-- `DistanceService.calculateDistance` (src/services/distance.ts lines
12-28): Haversine formula with Earth radius 6371 km, rounded to one
decimal place. -/
def calculateDistance (M : JsMath) (lat1 lon1 lat2 lon2 : ℚ) : ℚ :=
  let R : ℚ := 6371
  let dLat := toRadians M (lat2 - lat1)
  let dLon := toRadians M (lon2 - lon1)
  let a :=
    M.sin (dLat / 2) * M.sin (dLat / 2) +
      M.cos (toRadians M lat1) * M.cos (toRadians M lat2) *
        (M.sin (dLon / 2) * M.sin (dLon / 2))
  let c := 2 * M.atan2 (M.sqrt a) (M.sqrt (1 - a))
  let distance := R * c
  (jsRound (distance * 10) : ℚ) / 10

/-- `DistanceService.kmToMiles` (src/services/distance.ts lines 40-42):
`Math.round(km * 0.621371 * 10) / 10`. -/
def kmToMiles (km : ℚ) : ℚ :=
  (jsRound (km * (621371 / 1000000) * 10) : ℚ) / 10

/-- `DistanceService.calculateRoutes` (src/services/distance.ts lines
47-70): one route for every consecutive pair of venues. -/
def calculateRoutes (M : JsMath) : List Venue → List Route
  | v1 :: v2 :: rest =>
    let distanceKm :=
      calculateDistance M v1.latitude v1.longitude v2.latitude v2.longitude
    { fromVenue := v1, toVenue := v2, distanceKm := distanceKm,
      distanceMiles := kmToMiles distanceKm } :: calculateRoutes M (v2 :: rest)
  | _ => []

/-- `DistanceService.calculateTotalDistance` (src/services/distance.ts
lines 75-81): sums the per-route kilometers with `reduce`, then rounds
the sum, and derives the miles by converting that same sum. -/
def calculateTotalDistance (routes : List Route) : TotalDistance :=
  let totalKm := routes.foldl (fun sum route => sum + route.distanceKm) 0
  { km := (jsRound (totalKm * 10) : ℚ) / 10,
    miles := (jsRound (kmToMiles totalKm * 10) : ℚ) / 10 }

end DistanceService

/-- `GeocodeResponse` (src/types/tour.ts): latitude and longitude are
optional numbers; `none` models an absent field. -/
structure GeocodeResponse where
  success : Bool
  latitude : Option ℚ
  longitude : Option ℚ
deriving DecidableEq

/-- JavaScript truthiness of an optional number: an absent field and the
number 0 are both falsy. -/
def numTruthy : Option ℚ → Bool
  | none => false
  | some x => decide (x ≠ 0)

/-- The acceptance test src/App.tsx applies to a geocode result:
`geocodeResult.success && geocodeResult.latitude && geocodeResult.longitude`.
The subsequent `typeof ... === number` checks always hold in this model,
where a present coordinate is always a number. -/
def accepts (r : GeocodeResponse) : Bool :=
  r.success && numTruthy r.latitude && numTruthy r.longitude

/-- The primary geocoding address built in src/App.tsx lines 86-92:
address, city, state and country, with falsy parts filtered out. -/
def fullAddress (venue : Venue) : String :=
  String.intercalate ", "
    (([venue.address, venue.city, venue.state, venue.country]).filter
      (fun s => s ≠ ""))

/-- The reduced fallback address of src/App.tsx line 109: city and
country only. -/
def fallbackAddress (venue : Venue) : String :=
  String.intercalate ", " (([venue.city, venue.country]).filter (fun s => s ≠ ""))

/-- One iteration of the geocoding loop of src/App.tsx lines 74-129 for
the venue at 0-based index `i`. Returns the geocoded venue when one was
accepted, the entry pushed onto the skipped list when the venue was
skipped, and the list of addresses passed to the geocoder, in order. -/
def processVenue (geocode : String → GeocodeResponse) (i : ℕ) (venue : Venue) :
    Option Venue × Option String × List String :=
  if venue.name = "" ∨ venue.city = "" then
    (none,
     some (if venue.name = "" then "Venue " ++ toString (i + 1) else venue.name),
     [])
  else
    let geocodeResult := geocode (fullAddress venue)
    if accepts geocodeResult then
      (some { venue with latitude := geocodeResult.latitude.getD 0,
                         longitude := geocodeResult.longitude.getD 0 },
       none, [fullAddress venue])
    else
      let fallbackResult := geocode (fallbackAddress venue)
      if accepts fallbackResult then
        (some { venue with latitude := fallbackResult.latitude.getD 0,
                           longitude := fallbackResult.longitude.getD 0 },
         none, [fullAddress venue, fallbackAddress venue])
      else
        (none, some venue.name, [fullAddress venue, fallbackAddress venue])

/-- The whole geocoding loop of src/App.tsx lines 74-129, processing the
venues strictly in order starting at index `i`. Returns the geocoded
venues, the skipped list and the geocoder call log, each in order. The
fixed 1000 ms delay between calls has no observable effect here. -/
def geocodeLoop (geocode : String → GeocodeResponse) :
    ℕ → List Venue → List Venue × List String × List String
  | _, [] => ([], [], [])
  | i, v :: rest =>
    let step := processVenue geocode i v
    let restResult := geocodeLoop geocode (i + 1) rest
    (step.1.toList ++ restResult.1,
     step.2.1.toList ++ restResult.2.1,
     step.2.2 ++ restResult.2.2)

/-- The fields of the extraction result that src/App.tsx reads:
`venues := none` models a missing or non-array `venues` field, and
`name := ""` models a falsy name. -/
structure ExtractedData where
  name : String
  description : Option String
  venues : Option (List Venue)
deriving DecidableEq

/-- `Tour` (src/types/tour.ts), with dates as time values. -/
structure Tour where
  id : String
  name : String
  description : Option String
  venues : List Venue
  routes : List Route
  startDate : ℤ
  endDate : ℤ
  totalDurationDays : ℤ
deriving DecidableEq

/-- Steps 4-6 of src/App.tsx lines 138-165: sort the geocoded venues
ascending by start date, compute the routes over that order, and read
the overall start and end dates off the first and last sorted venue.
The defaults passed to `headD` and `getLastD` are never used, because
`mergeSort` preserves the length of the nonempty input list. -/
def assembleTour (M : JsMath) (nowId : String) (name : String)
    (description : Option String) (g0 : Venue) (gs : List Venue) : Tour :=
  let sortedVenues :=
    (g0 :: gs).mergeSort (fun a b => decide (a.startDate ≤ b.startDate))
  let routes := DistanceService.calculateRoutes M sortedVenues
  let firstVenue := sortedVenues.headD g0
  let lastVenue := sortedVenues.getLastD g0
  { id := nowId,
    name := if name = "" then "Theatre Tour" else name,
    description := description,
    venues := sortedVenues,
    routes := routes,
    startDate := firstVenue.startDate,
    endDate := lastVenue.endDate,
    totalDurationDays :=
      ⌈((lastVenue.endDate - firstVenue.startDate : ℤ) : ℚ) / (1000 * 60 * 60 * 24)⌉ }

/-- The user-visible outcome of one run of `handleExtractTour`:
`tour = some t` means `setTour(t)` was called (a new tour was published);
`tour = none` means the previous tour state is untouched.
`geocodeCalls` records every address passed to the Geocoding Client. -/
structure OrchestrationOutcome where
  tour : Option Tour
  error : Option String
  skippedVenues : List String
  geocodeCalls : List String
deriving DecidableEq

/-- The body of `handleExtractTour` (src/App.tsx lines 56-168) from the
extraction result onward: validate the extracted data, run the geocoding
loop, and either fail (publishing no tour) or assemble and publish the
tour. `extractedData = none` models a null or non-object extraction
result. The error strings are the literal messages thrown by the code. -/
def handleExtractTour (geocode : String → GeocodeResponse) (M : JsMath)
    (extractedData : Option ExtractedData) (nowId : String) : OrchestrationOutcome :=
  match extractedData with
  | none =>
    { tour := none, error := some "Invalid data received from AI service",
      skippedVenues := [], geocodeCalls := [] }
  | some data =>
    match data.venues with
    | none =>
      { tour := none,
        error := some "No venues found in the tour data. The page may not contain tour information.",
        skippedVenues := [], geocodeCalls := [] }
    | some vs =>
      if vs.length = 0 then
        { tour := none,
          error := some "No venues found in the tour data. The page may not contain tour information.",
          skippedVenues := [], geocodeCalls := [] }
      else
        match geocodeLoop geocode 0 vs with
        | ([], _, calls) =>
          { tour := none,
            error := some "Failed to geocode any venues. The addresses may be incomplete or invalid.",
            skippedVenues := [], geocodeCalls := calls }
        | (g0 :: gs, skipped, calls) =>
          { tour := some (assembleTour M nowId data.name data.description g0 gs),
            error := none,
            skippedVenues := skipped,
            geocodeCalls := calls }

/-- A JSON value, for the untyped payloads exchanged with the backend. -/
inductive Json where
  | null
  | bool (b : Bool)
  | num (q : ℚ)
  | str (s : String)
  | arr (elems : List Json)
  | obj (fields : List (String × Json))

/-- JavaScript property access `value[key]`: the field of an object, and
`undefined` (modelled by `null`) otherwise. -/
def Json.get : Json → String → Json
  | .obj fields, key =>
    match fields.find? (fun f => f.1 == key) with
    | some f => f.2
    | none => .null
  | _, _ => .null

/-- `Array.isArray(value)`. -/
def Json.isArray : Json → Bool
  | .arr _ => true
  | _ => false

/-- A fetch response as seen by the extraction client: the `ok` flag and
the JSON body. -/
structure FetchResponse where
  ok : Bool
  body : Json

/-- `AIService.extractTourData` (src/services/ai.ts lines 25-55) after
the fetch resolved: on an ok response the function returns the parsed
response body unchanged; on a non-ok response it throws the error field
of the body when that field is a truthy string, else a generic message. -/
def extractTourData (response : FetchResponse) : Except String Json :=
  if response.ok then
    Except.ok response.body
  else
    Except.error
      (match response.body.get "error" with
       | .str s => if s = "" then "Failed to extract tour data" else s
       | _ => "Failed to extract tour data")

/-! Concrete inputs used by witnesses and counterexamples. -/

/-- A concrete instantiation of the JavaScript Math functions; `sin` is
the identity, which satisfies the sign-symmetry law IEEE libm
implementations satisfy. -/
def cMath : JsMath :=
  { sin := id, cos := id, sqrt := id, atan2 := fun y _ => y, pi := 0 }

/-- A venue literal with the given name, city, and date range. -/
def mkVenue (nm ct : String) (s e : ℤ) : Venue :=
  { id := nm, name := nm, address := "", city := ct, state := "", country := "C",
    latitude := 0, longitude := 0, startDate := s, endDate := e, durationDays := 0 }

/-- A geocoder oracle that accepts every address at coordinates (1, 1). -/
def cGeocodeOk : String → GeocodeResponse :=
  fun _ => { success := true, latitude := some 1, longitude := some 1 }

/-- First venue of the duration counterexample: starts on day 0, ends on
day 200 (time values in milliseconds). -/
def vEarlyLong : Venue := mkVenue "A" "X" 0 (200 * 86400000)

/-- Second venue of the duration counterexample: starts on day 100, ends
on day 150 — later start than `vEarlyLong` but earlier end. -/
def vLateShort : Venue := mkVenue "B" "Y" (100 * 86400000) (150 * 86400000)

/-- A venue with no fields at all, used only to populate the venue
references of concrete route literals. -/
def vBlank : Venue :=
  { id := "", name := "", address := "", city := "", state := "", country := "",
    latitude := 0, longitude := 0, startDate := 0, endDate := 0, durationDays := 0 }

/-- A route of 0.1 km, whose mile field is what `calculateRoutes` would
store for it. -/
def rTenth : Route :=
  { fromVenue := vBlank, toVenue := vBlank, distanceKm := 1 / 10,
    distanceMiles := DistanceService.kmToMiles (1 / 10) }

/-- `vEarlyLong` as the geocoding loop returns it under `cGeocodeOk`. -/
def vEarlyGeocoded : Venue := { vEarlyLong with latitude := 1, longitude := 1 }

/-- `vLateShort` as the geocoding loop returns it under `cGeocodeOk`. -/
def vLateGeocoded : Venue := { vLateShort with latitude := 1, longitude := 1 }

/-- The extraction result used by the concrete two-venue runs. -/
def cExtractTwo : ExtractedData :=
  { name := "T", description := none, venues := some [vEarlyLong, vLateShort] }

/-- First venue of the three-venue partial-failure scenario. -/
def v7a : Venue := mkVenue "A" "X" 0 86400000

/-- Second venue of the three-venue partial-failure scenario; its
primary and fallback addresses are both "Y, C". -/
def v7b : Venue := mkVenue "B" "Y" 172800000 259200000

/-- Third venue of the three-venue partial-failure scenario. -/
def v7c : Venue := mkVenue "D" "Z" 345600000 432000000

/-- A geocoder oracle that fails exactly on the address "Y, C" (both of
venue `v7b`'s attempts) and succeeds everywhere else. -/
def cGeocodeFailY : String → GeocodeResponse := fun s =>
  if s = "Y, C" then { success := false, latitude := none, longitude := none }
  else { success := true, latitude := some 1, longitude := some 1 }

/-- A geocoder oracle that always reports success but with latitude
exactly 0. -/
def cGeocodeZero : String → GeocodeResponse :=
  fun _ => { success := true, latitude := some 0, longitude := some 1 }

/-- A geocoder oracle that always reports success but with longitude
exactly 0 (a point on the prime meridian). -/
def cGeocodeZeroLon : String → GeocodeResponse :=
  fun _ => { success := true, latitude := some 45, longitude := some 0 }

/-- The latest end date among the venues of a tour (0 for no venues;
every concrete venue here ends after the epoch). -/
def latestEnd (t : Tour) : ℤ := (t.venues.map Venue.endDate).foldl max 0

/-- The tour payload of a documented backend success response: a name
and a non-empty venues array. -/
def cTourPayload : Json :=
  Json.obj
    [("name", Json.str "Tour"),
     ("venues", Json.arr [Json.obj [("name", Json.str "Venue A")]])]

/-- A backend success response of the documented shape
`{success: true, provider, data: {name, venues: [...]}}`. -/
def cBackendResponse : Json :=
  Json.obj
    [("success", Json.bool true), ("provider", Json.str "openai"),
     ("data", cTourPayload)]

/-! Helper lemmas. -/

/-- Evaluation rule for `jsRound` at a known integer result. -/
theorem jsRound_eq_of (x : ℚ) (z : ℤ) (h1 : (z : ℚ) ≤ x + 1 / 2)
    (h2 : x + 1 / 2 < z + 1) : jsRound x = z := by
  rw [jsRound, Int.floor_eq_iff]
  constructor
  · exact_mod_cast h1
  · exact_mod_cast h2

/-- Evaluation rule for `kmToMiles` at a known rounded result. -/
theorem kmToMiles_eq_of (x : ℚ) (z : ℤ)
    (h1 : (z : ℚ) ≤ x * (621371 / 1000000) * 10 + 1 / 2)
    (h2 : x * (621371 / 1000000) * 10 + 1 / 2 < z + 1) :
    DistanceService.kmToMiles x = (z : ℚ) / 10 := by
  rw [DistanceService.kmToMiles, jsRound_eq_of _ z h1 h2]

/-- Folding addition of a projection over a list sums the projections. -/
theorem foldl_add_proj (f : Route → ℚ) (l : List Route) (a : ℚ) :
    l.foldl (fun sum route => sum + f route) a = a + (l.map f).sum := by
  induction l generalizing a with
  | nil => simp
  | cons r rest ih => simp [ih, add_assoc]

/-- `calculateRoutes` yields one route fewer than it got venues. -/
theorem calculateRoutes_length (M : JsMath) (venues : List Venue) :
    (DistanceService.calculateRoutes M venues).length = venues.length - 1 := by
  induction venues with
  | nil => simp [DistanceService.calculateRoutes]
  | cons v rest ih =>
    cases rest with
    | nil => simp [DistanceService.calculateRoutes]
    | cons w rest2 =>
      simp only [DistanceService.calculateRoutes, List.length_cons] at ih ⊢
      omega

/-- Route `i` of `calculateRoutes` connects venue `i` to venue `i + 1`,
with the Haversine distance and its mile conversion. -/
theorem calculateRoutes_getElem (M : JsMath) (venues : List Venue) (i : ℕ) :
    (DistanceService.calculateRoutes M venues)[i]? =
      (venues[i]?).bind (fun a => (venues[i + 1]?).map (fun b =>
        { fromVenue := a, toVenue := b,
          distanceKm :=
            DistanceService.calculateDistance M a.latitude a.longitude
              b.latitude b.longitude,
          distanceMiles :=
            DistanceService.kmToMiles
              (DistanceService.calculateDistance M a.latitude a.longitude
                b.latitude b.longitude) })) := by
  induction venues generalizing i with
  | nil => simp [DistanceService.calculateRoutes]
  | cons v rest ih =>
    cases rest with
    | nil => cases i <;> simp [DistanceService.calculateRoutes]
    | cons w rest2 =>
      cases i with
      | zero => simp [DistanceService.calculateRoutes]
      | succ j =>
        simp only [DistanceService.calculateRoutes, List.getElem?_cons_succ]
        rw [ih j, List.getElem?_cons_succ]

/-- Sorting with the comparator of src/App.tsx line 139 yields a list
that is pairwise ordered by start date. -/
theorem pairwise_mergeSort_startDate (l : List Venue) :
    (l.mergeSort (fun a b => decide (a.startDate ≤ b.startDate))).Pairwise
      (fun a b => a.startDate ≤ b.startDate) := by
  have h : (l.mergeSort (fun a b => decide (a.startDate ≤ b.startDate))).Pairwise
      (fun a b => decide (a.startDate ≤ b.startDate) = true) :=
    List.sorted_mergeSort
      (by intro a b c hab hbc; simp only [decide_eq_true_eq] at hab hbc ⊢; omega)
      (by intro a b; simp only [Bool.or_eq_true, decide_eq_true_eq]; exact Int.le_total _ _)
      l
  exact h.imp (by intro a b hab; simpa using hab)

/-- On a nonempty list, `getLastD` is `getLast`. -/
theorem getLastD_eq_getLast {α : Type} (l : List α) (h : l ≠ []) (d : α) :
    l.getLastD d = l.getLast h := by
  rw [List.getLastD_eq_getLast?, List.getLast?_eq_getLast l h, Option.getD_some]

/-- In a list pairwise ordered by start date, every element starts no
later than the last element. -/
theorem startDate_le_getLast :
    ∀ (l : List Venue), l.Pairwise (fun a b => a.startDate ≤ b.startDate) →
      ∀ (h : l ≠ []) (v : Venue), v ∈ l → v.startDate ≤ (l.getLast h).startDate := by
  intro l
  induction l with
  | nil => intro _ h; exact absurd rfl h
  | cons a rest ih =>
    intro hp h v hv
    cases rest with
    | nil =>
      have hva : v = a := by simpa using hv
      subst hva
      exact le_of_eq (congrArg Venue.startDate (List.getLast_singleton _ _).symm)
    | cons b rest2 =>
      rw [List.getLast_cons (by simp)]
      rcases List.mem_cons.mp hv with rfl | hv2
      · exact List.rel_of_pairwise_cons hp (List.getLast_mem (by simp))
      · exact ih (List.Pairwise.of_cons hp) (by simp) v hv2

/-- The venues field of an assembled tour is the start-date sort of the
geocoded venues. -/
theorem assembleTour_venues (M : JsMath) (nowId nm : String) (d : Option String)
    (g0 : Venue) (gs : List Venue) :
    (assembleTour M nowId nm d g0 gs).venues =
      (g0 :: gs).mergeSort (fun a b => decide (a.startDate ≤ b.startDate)) := rfl

/-- The routes field of an assembled tour is `calculateRoutes` over the
tour venue list itself. -/
theorem assembleTour_routes_eq (M : JsMath) (nowId nm : String) (d : Option String)
    (g0 : Venue) (gs : List Venue) :
    (assembleTour M nowId nm d g0 gs).routes =
      DistanceService.calculateRoutes M (assembleTour M nowId nm d g0 gs).venues := rfl

/-- An assembled tour has as many venues as the geocoding loop kept. -/
theorem assembleTour_venues_length (M : JsMath) (nowId nm : String) (d : Option String)
    (g0 : Venue) (gs : List Venue) :
    (assembleTour M nowId nm d g0 gs).venues.length = gs.length + 1 := by
  rw [assembleTour_venues]
  simp

/-- A published tour always comes from `assembleTour`. -/
theorem tour_of_handleExtractTour (g : String → GeocodeResponse) (M : JsMath)
    (ed : Option ExtractedData) (nowId : String) (t : Tour)
    (h : (handleExtractTour g M ed nowId).tour = some t) :
    ∃ nm d g0 gs, t = assembleTour M nowId nm d g0 gs := by
  cases ed with
  | none => simp [handleExtractTour] at h
  | some data =>
    cases hv : data.venues with
    | none => simp [handleExtractTour, hv] at h
    | some vs =>
      by_cases hlen : vs.length = 0
      · simp [handleExtractTour, hv, hlen] at h
      · rcases hgl : geocodeLoop g 0 vs with ⟨gvs, sk, calls⟩
        cases gvs with
        | nil => simp [handleExtractTour, hv, hlen, hgl] at h
        | cons g0 gs =>
          refine ⟨data.name, data.description, g0, gs, ?_⟩
          simp [handleExtractTour, hv, hlen, hgl] at h
          exact h.symm

/-- Evaluation of the geocoding loop on the two-venue concrete run. -/
theorem geocodeLoop_two_venues :
    geocodeLoop cGeocodeOk 0 [vEarlyLong, vLateShort] =
      ([vEarlyGeocoded, vLateGeocoded], [], ["X, C", "Y, C"]) := by
  simp [geocodeLoop, processVenue, accepts, numTruthy, fullAddress, fallbackAddress,
    cGeocodeOk, vEarlyLong, vLateShort, mkVenue, vEarlyGeocoded, vLateGeocoded,
    String.intercalate]
  decide

/-- The two geocoded concrete venues are already in start-date order, so
sorting leaves them in place. -/
theorem mergeSort_two_venues :
    ([vEarlyGeocoded, vLateGeocoded]).mergeSort
      (fun a b => decide (a.startDate ≤ b.startDate)) = [vEarlyGeocoded, vLateGeocoded] :=
  List.mergeSort_of_sorted
    (by simp [vEarlyGeocoded, vLateGeocoded, vEarlyLong, vLateShort, mkVenue])

/-- The two-venue concrete run publishes the assembled tour. -/
theorem run_two_venues :
    (handleExtractTour cGeocodeOk cMath (some cExtractTwo) "tour-1").tour =
      some (assembleTour cMath "tour-1" "T" none vEarlyGeocoded [vLateGeocoded]) := by
  simp [handleExtractTour, cExtractTwo, geocodeLoop_two_venues]

/-! Claim theorems. -/

/-- Claim C2, counterexample: for two consistent routes of 0.1 km each,
the code returns total miles 0.1 (converting the summed kilometers),
while the claim, which says the miles are the per-route miles summed and
rounded, predicts 0.2. -/
theorem C2_counterexample :
    (DistanceService.calculateTotalDistance [rTenth, rTenth]).miles = 1 / 10 ∧
    (jsRound ((([rTenth, rTenth]).map Route.distanceMiles).sum * 10) : ℚ) / 10 = 2 / 10 ∧
    (1 / 10 : ℚ) ≠ 2 / 10 := by
  have hmile : DistanceService.kmToMiles (1 / 10) = 1 / 10 := by
    rw [kmToMiles_eq_of (1 / 10) 1 (by norm_num) (by norm_num)]
    norm_num
  refine ⟨?_, ?_, by norm_num⟩
  · simp only [DistanceService.calculateTotalDistance, List.foldl_cons, List.foldl_nil, rTenth]
    rw [show (0 : ℚ) + 1 / 10 + 1 / 10 = 1 / 5 by norm_num]
    rw [kmToMiles_eq_of (1 / 5) 1 (by norm_num) (by norm_num)]
    rw [show ((1 : ℤ) : ℚ) / 10 * 10 = 1 by norm_num]
    rw [jsRound_eq_of 1 1 (by norm_num) (by norm_num)]
    norm_num
  · simp only [List.map_cons, List.map_nil, List.sum_cons, List.sum_nil, rTenth, hmile]
    rw [show ((1 : ℚ) / 10 + (1 / 10 + 0)) * 10 = 2 by norm_num]
    rw [jsRound_eq_of 2 2 (by norm_num) (by norm_num)]
    norm_num

/-- Claim C2 (amended): `calculateTotalDistance(routes)` returns the sum
of the per-route kilometers rounded to one decimal place, and for miles
it converts that same summed-kilometer value with `kmToMiles` and rounds
the result again to one decimal place; it does not sum the per-route
mile values. -/
theorem C2_total_distance_from_summed_km (routes : List Route) :
    DistanceService.calculateTotalDistance routes =
      { km := (jsRound ((routes.map Route.distanceKm).sum * 10) : ℚ) / 10,
        miles :=
          (jsRound
            (DistanceService.kmToMiles ((routes.map Route.distanceKm).sum) * 10) : ℚ)
            / 10 } := by
  simp only [DistanceService.calculateTotalDistance, foldl_add_proj, zero_add]

/-- Claim C4, counterexample: 0.09 is a positive input on which rounding
makes the mile value exceed the kilometer input, since
`kmToMiles(0.09) = 0.1 > 0.09`. -/
theorem C4_counterexample :
    (0 : ℚ) < 9 / 100 ∧ ¬ DistanceService.kmToMiles (9 / 100) < 9 / 100 := by
  rw [kmToMiles_eq_of (9 / 100) 1 (by norm_num) (by norm_num)]
  norm_num

/-- Claim C4 (amended): `kmToMiles(x) < x` holds for every `x > 0.1`
(the violations are confined to `0.080468 ≤ x ≤ 0.1`), and
`kmToMiles(0) = 0`. -/
theorem C4_kmToMiles_lt_self (x : ℚ) (hx : 1 / 10 < x) :
    DistanceService.kmToMiles x < x ∧ DistanceService.kmToMiles 0 = 0 := by
  constructor
  · rw [DistanceService.kmToMiles]
    rcases le_or_lt x (3 / 20) with h | h
    · have hfl : jsRound (x * (621371 / 1000000) * 10) < 2 := by
        rw [jsRound, Int.floor_lt]
        push_cast
        linarith
      have hfl2 : ((jsRound (x * (621371 / 1000000) * 10) : ℤ) : ℚ) ≤ 1 := by
        exact_mod_cast Int.lt_add_one_iff.mp hfl
      linarith
    · have hle : ((jsRound (x * (621371 / 1000000) * 10) : ℤ) : ℚ)
          ≤ x * (621371 / 1000000) * 10 + 1 / 2 := by
        rw [jsRound]
        exact_mod_cast Int.floor_le _
      linarith
  · rw [kmToMiles_eq_of 0 0 (by norm_num) (by norm_num)]
    norm_num

/-- Claim C4 witness: the amended bound instantiated at x = 1. -/
theorem C4_witness :
    (1 : ℚ) / 10 < 1 ∧
      (DistanceService.kmToMiles 1 < 1 ∧ DistanceService.kmToMiles 0 = 0) :=
  ⟨by norm_num, C4_kmToMiles_lt_self 1 (by norm_num)⟩

/-- Claim C6: `calculateRoutes` returns exactly `venues.length - 1`
routes (truncated subtraction, so `max(0, n - 1)`: the empty list for 0
or 1 venues), and route `i` connects venue `i` to venue `i + 1`, with
`distanceKm` computed by the Haversine `calculateDistance` and
`distanceMiles` by `kmToMiles` of that distance. -/
theorem C6_calculateRoutes_consecutive (M : JsMath) (venues : List Venue) :
    (DistanceService.calculateRoutes M venues).length = venues.length - 1 ∧
    ∀ i : ℕ, (DistanceService.calculateRoutes M venues)[i]? =
      (venues[i]?).bind (fun a => (venues[i + 1]?).map (fun b =>
        { fromVenue := a, toVenue := b,
          distanceKm :=
            DistanceService.calculateDistance M a.latitude a.longitude
              b.latitude b.longitude,
          distanceMiles :=
            DistanceService.kmToMiles
              (DistanceService.calculateDistance M a.latitude a.longitude
                b.latitude b.longitude) })) :=
  ⟨calculateRoutes_length M venues, fun i => calculateRoutes_getElem M venues i⟩

/-- Claim C9: the Haversine distance is symmetric in its two coordinate
pairs, for any model of the Math object whose sine satisfies the
sign-symmetry law `sin(-x) = -sin(x)` that binary64 libm sine satisfies. -/
theorem C9_calculateDistance_symm (M : JsMath)
    (hsin : ∀ x, M.sin (-x) = -(M.sin x)) (lat1 lon1 lat2 lon2 : ℚ) :
    DistanceService.calculateDistance M lat1 lon1 lat2 lon2 =
      DistanceService.calculateDistance M lat2 lon2 lat1 lon1 := by
  have key : ∀ u v : ℚ,
      M.sin (DistanceService.toRadians M (u - v) / 2) *
          M.sin (DistanceService.toRadians M (u - v) / 2)
        = M.sin (DistanceService.toRadians M (v - u) / 2) *
            M.sin (DistanceService.toRadians M (v - u) / 2) := by
    intro u v
    have h : DistanceService.toRadians M (u - v) / 2
        = -(DistanceService.toRadians M (v - u) / 2) := by
      simp only [DistanceService.toRadians]
      ring
    rw [h, hsin]
    ring
  simp only [DistanceService.calculateDistance]
  rw [key lat2 lat1, key lon2 lon1,
    mul_comm (M.cos (DistanceService.toRadians M lat1))
      (M.cos (DistanceService.toRadians M lat2))]

/-- Claim C9 witness: symmetry instantiated at the concrete Math model
and the coordinate pairs (1, 2) and (3, 4). -/
theorem C9_witness :
    DistanceService.calculateDistance cMath 1 2 3 4 =
      DistanceService.calculateDistance cMath 3 4 1 2 :=
  C9_calculateDistance_symm cMath (fun _ => rfl) 1 2 3 4

/-- Claim C3, counterexample: on two surviving venues where the
earlier-starting venue ends later (day 200) than the last-starting venue
(day 150), the published tour has endDate day 150 and duration 150 days,
while the latest end among its venues is day 200 — so endDate is not the
latest end and the duration is not computed from it. -/
theorem C3_counterexample :
    ((handleExtractTour cGeocodeOk cMath (some cExtractTwo) "tour-1").tour.map
        Tour.endDate) = some (150 * 86400000) ∧
    ((handleExtractTour cGeocodeOk cMath (some cExtractTwo) "tour-1").tour.map
        latestEnd) = some (200 * 86400000) ∧
    ((handleExtractTour cGeocodeOk cMath (some cExtractTwo) "tour-1").tour.map
        Tour.totalDurationDays) = some 150 ∧
    (150 * 86400000 : ℤ) ≠ 200 * 86400000 ∧ (150 : ℤ) ≠ 200 := by
  have hEnd : (assembleTour cMath "tour-1" "T" none vEarlyGeocoded [vLateGeocoded]).endDate
      = 150 * 86400000 := by
    simp only [assembleTour]
    rw [mergeSort_two_venues]
    simp [vEarlyGeocoded, vLateGeocoded, vEarlyLong, vLateShort, mkVenue]
  have hDur : (assembleTour cMath "tour-1" "T" none vEarlyGeocoded [vLateGeocoded]).totalDurationDays
      = 150 := by
    simp only [assembleTour]
    rw [mergeSort_two_venues]
    rw [show ((([vEarlyGeocoded, vLateGeocoded]).getLastD vEarlyGeocoded).endDate -
        (([vEarlyGeocoded, vLateGeocoded]).headD vEarlyGeocoded).startDate : ℤ)
        = 12960000000 by
      simp [vEarlyGeocoded, vLateGeocoded, vEarlyLong, vLateShort, mkVenue]]
    rw [show ((12960000000 : ℤ) : ℚ) / (1000 * 60 * 60 * 24) = ((150 : ℤ) : ℚ) by
      push_cast
      norm_num]
    exact Int.ceil_intCast 150
  have hMax : latestEnd (assembleTour cMath "tour-1" "T" none vEarlyGeocoded [vLateGeocoded])
      = 200 * 86400000 := by
    rw [latestEnd, assembleTour_venues, mergeSort_two_venues]
    simp [vEarlyGeocoded, vLateGeocoded, vEarlyLong, vLateShort, mkVenue]
  rw [run_two_venues]
  refine ⟨?_, ?_, ?_, by omega, by omega⟩
  · rw [Option.map_some', hEnd]
  · rw [Option.map_some', hMax]
  · rw [Option.map_some', hDur]

/-- Claim C3 (amended): for every published tour, startDate is the
earliest venue start date (the start of the first sorted venue), but
endDate is the end date of the LAST venue in start-date order (the
latest-starting venue, whose end need not be the latest end), and
totalDurationDays is the ceiling of (that end minus the earliest start)
divided by one day in milliseconds. -/
theorem C3_dates_from_sorted_order (g : String → GeocodeResponse) (M : JsMath)
    (ed : Option ExtractedData) (nowId : String) (t : Tour)
    (h : (handleExtractTour g M ed nowId).tour = some t) :
    ∃ f rest, t.venues = f :: rest ∧
      t.startDate = f.startDate ∧
      (∀ v ∈ t.venues, t.startDate ≤ v.startDate) ∧
      t.endDate = ((f :: rest).getLast (List.cons_ne_nil f rest)).endDate ∧
      (∀ v ∈ t.venues, v.startDate ≤ ((f :: rest).getLast (List.cons_ne_nil f rest)).startDate) ∧
      t.totalDurationDays =
        ⌈((t.endDate - t.startDate : ℤ) : ℚ) / (1000 * 60 * 60 * 24)⌉ := by
  obtain ⟨nm, d, g0, gs, rfl⟩ := tour_of_handleExtractTour g M ed nowId t h
  have hpw0 := pairwise_mergeSort_startDate (g0 :: gs)
  rcases hs : (g0 :: gs).mergeSort (fun a b => decide (a.startDate ≤ b.startDate))
    with _ | ⟨f, rest⟩
  · exact absurd (congrArg List.length hs) (by simp)
  · rw [hs] at hpw0
    have hv : (assembleTour M nowId nm d g0 gs).venues = f :: rest := by
      rw [assembleTour_venues, hs]
    have hstart : (assembleTour M nowId nm d g0 gs).startDate = f.startDate := by
      show (((g0 :: gs).mergeSort
        (fun a b => decide (a.startDate ≤ b.startDate))).headD g0).startDate = f.startDate
      rw [hs, List.headD_cons]
    have hend : (assembleTour M nowId nm d g0 gs).endDate
        = ((f :: rest).getLast (List.cons_ne_nil f rest)).endDate := by
      show (((g0 :: gs).mergeSort
        (fun a b => decide (a.startDate ≤ b.startDate))).getLastD g0).endDate = _
      rw [hs, getLastD_eq_getLast (f :: rest) (List.cons_ne_nil f rest) g0]
    refine ⟨f, rest, hv, hstart, ?_, hend, ?_, ?_⟩
    · intro v hvv
      rw [hv] at hvv
      rw [hstart]
      rcases List.mem_cons.mp hvv with rfl | h2
      · exact le_refl _
      · exact List.rel_of_pairwise_cons hpw0 h2
    · intro v hvv
      rw [hv] at hvv
      exact startDate_le_getLast (f :: rest) hpw0 (List.cons_ne_nil f rest) v hvv
    · rfl

/-- Claim C3 witness: the amended statement instantiated on the concrete
two-venue run. -/
theorem C3_witness :
    ∃ f rest,
      (assembleTour cMath "tour-1" "T" none vEarlyGeocoded [vLateGeocoded]).venues
        = f :: rest ∧
      (assembleTour cMath "tour-1" "T" none vEarlyGeocoded [vLateGeocoded]).startDate
        = f.startDate ∧
      (∀ v ∈ (assembleTour cMath "tour-1" "T" none vEarlyGeocoded [vLateGeocoded]).venues,
        (assembleTour cMath "tour-1" "T" none vEarlyGeocoded [vLateGeocoded]).startDate
          ≤ v.startDate) ∧
      (assembleTour cMath "tour-1" "T" none vEarlyGeocoded [vLateGeocoded]).endDate
        = ((f :: rest).getLast (List.cons_ne_nil f rest)).endDate ∧
      (∀ v ∈ (assembleTour cMath "tour-1" "T" none vEarlyGeocoded [vLateGeocoded]).venues,
        v.startDate ≤ ((f :: rest).getLast (List.cons_ne_nil f rest)).startDate) ∧
      (assembleTour cMath "tour-1" "T" none vEarlyGeocoded [vLateGeocoded]).totalDurationDays
        = ⌈(((assembleTour cMath "tour-1" "T" none vEarlyGeocoded [vLateGeocoded]).endDate
            - (assembleTour cMath "tour-1" "T" none vEarlyGeocoded [vLateGeocoded]).startDate
            : ℤ) : ℚ) / (1000 * 60 * 60 * 24)⌉ :=
  C3_dates_from_sorted_order cGeocodeOk cMath (some cExtractTwo) "tour-1"
    (assembleTour cMath "tour-1" "T" none vEarlyGeocoded [vLateGeocoded]) run_two_venues

/-- Claim C5: every published tour has its venues pairwise ordered
ascending by start date, and its routes are computed from exactly that
order: there are venues-minus-one routes and route j connects venue j to
venue j + 1 via the Distance Engine. -/
theorem C5_sorted_and_routes_aligned (g : String → GeocodeResponse) (M : JsMath)
    (ed : Option ExtractedData) (nowId : String) (t : Tour)
    (h : (handleExtractTour g M ed nowId).tour = some t) :
    t.venues.Pairwise (fun a b => a.startDate ≤ b.startDate) ∧
    t.routes.length = t.venues.length - 1 ∧
    ∀ j : ℕ, t.routes[j]? = (t.venues[j]?).bind (fun a => (t.venues[j + 1]?).map (fun b =>
      { fromVenue := a, toVenue := b,
        distanceKm :=
          DistanceService.calculateDistance M a.latitude a.longitude
            b.latitude b.longitude,
        distanceMiles :=
          DistanceService.kmToMiles
            (DistanceService.calculateDistance M a.latitude a.longitude
              b.latitude b.longitude) })) := by
  obtain ⟨nm, d, g0, gs, rfl⟩ := tour_of_handleExtractTour g M ed nowId t h
  refine ⟨?_, ?_, fun j => ?_⟩
  · rw [assembleTour_venues]
    exact pairwise_mergeSort_startDate _
  · rw [assembleTour_routes_eq]
    exact calculateRoutes_length M _
  · rw [assembleTour_routes_eq]
    exact calculateRoutes_getElem M _ j

/-- Claim C5 witness: the ordering-and-routes invariant instantiated on
the concrete two-venue run. -/
theorem C5_witness :
    (assembleTour cMath "tour-1" "T" none vEarlyGeocoded [vLateGeocoded]).venues.Pairwise
      (fun a b => a.startDate ≤ b.startDate) ∧
    (assembleTour cMath "tour-1" "T" none vEarlyGeocoded [vLateGeocoded]).routes.length
      = (assembleTour cMath "tour-1" "T" none vEarlyGeocoded [vLateGeocoded]).venues.length - 1 ∧
    ∀ j : ℕ, (assembleTour cMath "tour-1" "T" none vEarlyGeocoded [vLateGeocoded]).routes[j]?
      = ((assembleTour cMath "tour-1" "T" none vEarlyGeocoded [vLateGeocoded]).venues[j]?).bind
          (fun a =>
            ((assembleTour cMath "tour-1" "T" none vEarlyGeocoded [vLateGeocoded]).venues[j + 1]?).map
              (fun b =>
                { fromVenue := a, toVenue := b,
                  distanceKm :=
                    DistanceService.calculateDistance cMath a.latitude a.longitude
                      b.latitude b.longitude,
                  distanceMiles :=
                    DistanceService.kmToMiles
                      (DistanceService.calculateDistance cMath a.latitude a.longitude
                        b.latitude b.longitude) })) :=
  C5_sorted_and_routes_aligned cGeocodeOk cMath (some cExtractTwo) "tour-1"
    (assembleTour cMath "tour-1" "T" none vEarlyGeocoded [vLateGeocoded]) run_two_venues

/-- Claim C7: a venue missing a name or city is skipped with no geocoder
call; a venue whose primary geocode is rejected is retried exactly once
with the reduced city-and-country address; and in a three-venue run where
the second venue fails both attempts, the published tour has exactly 2
venues and 1 route, the skipped list is exactly the second venue name,
and the geocoder was called exactly four times, in order. -/
theorem C7_geocode_failure_handling (g : String → GeocodeResponse) (M : JsMath)
    (nm : String) (d : Option String) (nowId : String) (v1 v2 v3 : Venue)
    (h1n : v1.name ≠ "") (h1c : v1.city ≠ "")
    (h2n : v2.name ≠ "") (h2c : v2.city ≠ "")
    (h3n : v3.name ≠ "") (h3c : v3.city ≠ "")
    (ha1 : accepts (g (fullAddress v1)) = true)
    (ha2 : accepts (g (fullAddress v2)) = false)
    (ha2f : accepts (g (fallbackAddress v2)) = false)
    (ha3 : accepts (g (fullAddress v3)) = true) :
    (∃ t, (handleExtractTour g M
        (some { name := nm, description := d, venues := some [v1, v2, v3] }) nowId).tour
        = some t ∧ t.venues.length = 2 ∧ t.routes.length = 1) ∧
    (handleExtractTour g M
        (some { name := nm, description := d, venues := some [v1, v2, v3] }) nowId).skippedVenues
      = [v2.name] ∧
    (handleExtractTour g M
        (some { name := nm, description := d, venues := some [v1, v2, v3] }) nowId).geocodeCalls
      = [fullAddress v1, fullAddress v2, fallbackAddress v2, fullAddress v3] ∧
    (∀ (g2 : String → GeocodeResponse) (i : ℕ) (v : Venue), v.name = "" ∨ v.city = "" →
      processVenue g2 i v =
        (none, some (if v.name = "" then "Venue " ++ toString (i + 1) else v.name), [])) := by
  have hl : geocodeLoop g 0 [v1, v2, v3] =
      ([{ v1 with latitude := (g (fullAddress v1)).latitude.getD 0,
                  longitude := (g (fullAddress v1)).longitude.getD 0 },
        { v3 with latitude := (g (fullAddress v3)).latitude.getD 0,
                  longitude := (g (fullAddress v3)).longitude.getD 0 }],
       [v2.name],
       [fullAddress v1, fullAddress v2, fallbackAddress v2, fullAddress v3]) := by
    simp [geocodeLoop, processVenue, h1n, h1c, h2n, h2c, h3n, h3c, ha1, ha2, ha2f, ha3]
  have hrun : (handleExtractTour g M
      (some { name := nm, description := d, venues := some [v1, v2, v3] }) nowId).tour
      = some (assembleTour M nowId nm d
          { v1 with latitude := (g (fullAddress v1)).latitude.getD 0,
                    longitude := (g (fullAddress v1)).longitude.getD 0 }
          [{ v3 with latitude := (g (fullAddress v3)).latitude.getD 0,
                     longitude := (g (fullAddress v3)).longitude.getD 0 }]) := by
    simp [handleExtractTour, hl]
  refine ⟨⟨_, hrun, ?_, ?_⟩, ?_, ?_, ?_⟩
  · rw [assembleTour_venues_length]
    rfl
  · rw [assembleTour_routes_eq, calculateRoutes_length, assembleTour_venues_length]
    rfl
  · simp [handleExtractTour, hl]
  · simp [handleExtractTour, hl]
  · intro g2 i v hvv
    simp only [processVenue]
    rw [if_pos hvv]

/-- Claim C7 witness: the partial-failure behavior instantiated on three
concrete venues with an oracle failing exactly on the middle venue. -/
theorem C7_witness :
    (∃ t, (handleExtractTour cGeocodeFailY cMath
        (some { name := "T", description := none, venues := some [v7a, v7b, v7c] }) "tour-1").tour
        = some t ∧ t.venues.length = 2 ∧ t.routes.length = 1) ∧
    (handleExtractTour cGeocodeFailY cMath
        (some { name := "T", description := none, venues := some [v7a, v7b, v7c] }) "tour-1").skippedVenues
      = [v7b.name] ∧
    (handleExtractTour cGeocodeFailY cMath
        (some { name := "T", description := none, venues := some [v7a, v7b, v7c] }) "tour-1").geocodeCalls
      = [fullAddress v7a, fullAddress v7b, fallbackAddress v7b, fullAddress v7c] ∧
    (∀ (g2 : String → GeocodeResponse) (i : ℕ) (v : Venue), v.name = "" ∨ v.city = "" →
      processVenue g2 i v =
        (none, some (if v.name = "" then "Venue " ++ toString (i + 1) else v.name), [])) :=
  C7_geocode_failure_handling cGeocodeFailY cMath "T" none "tour-1" v7a v7b v7c
    (by decide) (by decide) (by decide) (by decide) (by decide) (by decide)
    (by simp [cGeocodeFailY, fullAddress, v7a, mkVenue, accepts, numTruthy,
      String.intercalate]
        <;> decide)
    (by simp [cGeocodeFailY, fullAddress, v7b, mkVenue, accepts, numTruthy,
      String.intercalate]
        <;> decide)
    (by simp [cGeocodeFailY, fallbackAddress, v7b, mkVenue, accepts, numTruthy,
      String.intercalate]
        <;> decide)
    (by simp [cGeocodeFailY, fullAddress, v7c, mkVenue, accepts, numTruthy,
      String.intercalate]
        <;> decide)

/-- Claim C8: when the extraction result has an empty or missing venues
list, the run fails with the "no venues found" message, makes no
geocoder call, records no skipped venues, and publishes no tour (the
previous tour state is unchanged). -/
theorem C8_empty_venues_fails (g : String → GeocodeResponse) (M : JsMath)
    (data : ExtractedData) (nowId : String)
    (h : data.venues = none ∨ data.venues = some []) :
    handleExtractTour g M (some data) nowId =
      { tour := none,
        error := some "No venues found in the tour data. The page may not contain tour information.",
        skippedVenues := [], geocodeCalls := [] } := by
  rcases h with h | h <;> simp [handleExtractTour, h]

/-- Claim C8 witness: the empty-venues failure instantiated on a
concrete extraction result with an empty venues array. -/
theorem C8_witness :
    handleExtractTour cGeocodeOk cMath
      (some { name := "T", description := none, venues := some [] }) "tour-1" =
      { tour := none,
        error := some "No venues found in the tour data. The page may not contain tour information.",
        skippedVenues := [], geocodeCalls := [] } :=
  C8_empty_venues_fails cGeocodeOk cMath
    { name := "T", description := none, venues := some [] } "tour-1" (Or.inr rfl)

/-- Claim C10: a geocode result with success true but latitude or
longitude exactly 0 (equator or prime meridian) fails the truthiness
acceptance check, so the orchestrator proceeds to the fallback call, and
when the fallback likewise reports success with a zero latitude or
longitude the venue is dropped into the skipped list. -/
theorem C10_zero_coordinate_rejected (g : String → GeocodeResponse) (i : ℕ) (v : Venue)
    (hn : v.name ≠ "") (hc : v.city ≠ "")
    (hps : (g (fullAddress v)).success = true)
    (hpzero : (g (fullAddress v)).latitude = some 0 ∨
      (g (fullAddress v)).longitude = some 0)
    (hfs : (g (fallbackAddress v)).success = true)
    (hfzero : (g (fallbackAddress v)).latitude = some 0 ∨
      (g (fallbackAddress v)).longitude = some 0) :
    processVenue g i v = (none, some v.name, [fullAddress v, fallbackAddress v]) := by
  have hacc : accepts (g (fullAddress v)) = false := by
    rcases hpzero with h | h <;> simp [accepts, h, numTruthy]
  have haccf : accepts (g (fallbackAddress v)) = false := by
    rcases hfzero with h | h <;> simp [accepts, h, numTruthy]
  simp [processVenue, hn, hc, hacc, haccf]

/-- Claim C10 witness: the zero-coordinate rejection instantiated on a
concrete venue, once with an oracle that always returns latitude 0 and
once with an oracle that always returns longitude 0, exercising both
disjuncts of the zero-coordinate hypothesis. -/
theorem C10_witness :
    processVenue cGeocodeZero 0 v7a
      = (none, some v7a.name, [fullAddress v7a, fallbackAddress v7a]) ∧
    processVenue cGeocodeZeroLon 0 v7a
      = (none, some v7a.name, [fullAddress v7a, fallbackAddress v7a]) :=
  ⟨C10_zero_coordinate_rejected cGeocodeZero 0 v7a (by decide) (by decide)
      rfl (Or.inl rfl) rfl (Or.inl rfl),
   C10_zero_coordinate_rejected cGeocodeZeroLon 0 v7a (by decide) (by decide)
      rfl (Or.inr rfl) rfl (Or.inr rfl)⟩

/-- Claim C1, evaluated at the failing input: on the documented backend
success response, `extractTourData` returns the whole response wrapper
unchanged, not the inner data payload: the returned value has no
top-level venues field (property access yields undefined, modelled as
null, and fails the orchestrator Array.isArray check), while the
non-empty venues array sits one level down under the data field. So the
claim — that the returned structure has the tour name and venues at top
level — does not hold of the code, although it matches the declared
return type and doc comment of extractTourData. -/
theorem C1_returns_wrapper_not_payload :
    extractTourData { ok := true, body := cBackendResponse }
      = Except.ok cBackendResponse ∧
    cBackendResponse.get "venues" = Json.null ∧
    Json.isArray (cBackendResponse.get "venues") = false ∧
    cBackendResponse.get "data" = cTourPayload ∧
    Json.isArray (cTourPayload.get "venues") = true ∧
    cTourPayload.get "venues" = Json.arr [Json.obj [("name", Json.str "Venue A")]] :=
  ⟨rfl, rfl, rfl, rfl, rfl, rfl⟩

end MorganMap
